import Mathlib

/-!
Verification development for the helpdesk ticket backend
(`backend/helpdesk/{models,serializers,views,filters,urls,admin}.py`).

The embedding models:
- the `Ticket` entity (`models.py`),
- the three serializers and their shared field validators (`serializers.py`),
- the list/create, retrieve/update and stats operations (`views.py`),
- the public request surface (`urls.py`, plus the admin console whose
  `has_delete_permission` always returns `False`, `admin.py`).

Strings are Lean `String`s, timestamps are `Nat` (a single request-scoped
`now` stands for `django.utils.timezone.now()`), and the database is a list
of tickets together with the next auto-increment primary key.  The
`OrderingFilter` backend and pagination are orthogonal to every property
proved here (they permute / window the result sequence identically on both
sides of each statement) and are not modelled; results are returned in store
order.
-/

namespace Helpdesk

/-- Status enumeration from `Ticket.STATUS_CHOICES` in `models.py`. -/
inductive Status
  | pending
  | accepted
  | resolved
  | rejected
deriving DecidableEq, Repr

/-- String form of a status, as stored in the `status` column. -/
def statusStr : Status → String
  | .pending => "pending"
  | .accepted => "accepted"
  | .resolved => "resolved"
  | .rejected => "rejected"

/-- Parse a status choice; `none` when the value is not one of the four
choices (DRF `ChoiceField` rejects it). -/
def parseStatus : String → Option Status
  | "pending" => some Status.pending
  | "accepted" => some Status.accepted
  | "resolved" => some Status.resolved
  | "rejected" => some Status.rejected
  | _ => none

/-- The `Ticket` model of `models.py`: `id` primary key, `title`
(`CharField(max_length=200)`), `description` (`TextField`), `contact_email`
(`EmailField`), `contact_phone` (optional, `max_length=20`), `status`
(choices, default `pending`), `created_at` (`auto_now_add`), `updated_at`
(`auto_now`). -/
structure Ticket where
  id : Nat
  title : String
  description : String
  contact_email : String
  contact_phone : Option String
  status : Status
  created_at : Nat
  updated_at : Nat
deriving DecidableEq, Repr

/-- The persistent store: the ticket rows plus the next auto-increment id. -/
structure Store where
  tickets : List Ticket
  nextId : Nat
deriving DecidableEq, Repr

/-- Characters stripped by Python `str.strip()` (the ASCII whitespace set). -/
def pyIsSpace (c : Char) : Bool :=
  c = ' ' || c = '\t' || c = '\n' || c = '\r' || c = '\x0b' || c = '\x0c'

/-- Python `str.strip()` on the underlying character list. -/
def pyStripList (l : List Char) : List Char :=
  ((l.dropWhile pyIsSpace).reverse.dropWhile pyIsSpace).reverse

/-- Python `str.strip()`: drop leading and trailing whitespace. -/
def pyStrip (s : String) : String :=
  String.mk (pyStripList s.data)

/-- Does `needle` occur at the head of `hay`? -/
def headMatch : List Char → List Char → Bool
  | [], _ => true
  | _ :: _, [] => false
  | a :: as, b :: bs => a = b && headMatch as bs

/-- Does `needle` occur as a contiguous sublist of `hay`? -/
def occursIn (needle : List Char) : List Char → Bool
  | [] => needle.isEmpty
  | b :: bs => headMatch needle (b :: bs) || occursIn needle bs

/-- The ORM `icontains` lookup: case-insensitive substring test. -/
def icontains (needle hay : String) : Bool :=
  occursIn (needle.data.map Char.toLower) (hay.data.map Char.toLower)

/-- A JSON request body for the write operations.  Each field is `some`
exactly when the key is present in the body.  (`status` is listed in the
update serializer only; the create serializer ignores it, as DRF ignores
keys outside the declared field set.) -/
structure Body where
  title : Option String
  description : Option String
  contact_email : Option String
  contact_phone : Option String
  status : Option String
deriving DecidableEq, Repr

/-- Field pipeline of the `title` field: DRF `CharField` with
`trim_whitespace=True` and `allow_blank=False`, the `max_length=200`
validator inherited from the model, then `validate_title` from
`serializers.py` (shared verbatim by all three serializers): strip, reject
when the stripped length is below 3, return the stripped value. -/
def validateTitleField (v : String) : Except String String :=
  let s := pyStrip v
  if s.length = 0 then Except.error "This field may not be blank."
  else if 200 < s.length then
    Except.error "Ensure this field has no more than 200 characters."
  else if s.length < 3 then
    Except.error "Title must be at least 3 characters long."
  else Except.ok s

/-- Field pipeline of the `description` field (`TextField`, no max length):
blank check, then `validate_description`: strip, reject when the stripped
length is below 10, return the stripped value. -/
def validateDescriptionField (v : String) : Except String String :=
  let s := pyStrip v
  if s.length = 0 then Except.error "This field may not be blank."
  else if s.length < 10 then
    Except.error "Description must be at least 10 characters long."
  else Except.ok s

/-- Split a character list at every occurrence of the separator `c`. -/
def splitOnChar (c : Char) : List Char → List (List Char)
  | [] => [[]]
  | x :: xs =>
    match splitOnChar c xs with
    | [] => [[]]
    | ys :: rest => if x = c then [] :: ys :: rest else (x :: ys) :: rest

/-- Modelled abstraction of Django's `EmailValidator` (framework code, not
part of this repository): one `@` sign, a non-empty local part and a domain
made of non-empty dot-separated labels.  No claim proved below depends on
the exact extension of this predicate. -/
def emailWellFormed (s : String) : Bool :=
  match splitOnChar '@' s.data with
  | [loc, dom] =>
      !loc.isEmpty && !dom.isEmpty &&
        (splitOnChar '.' dom).all (fun lbl => !lbl.isEmpty)
  | _ => false

/-- Field pipeline of the `contact_email` field: `EmailField` (model
`max_length` 254) with the well-formedness validator. -/
def validateEmailField (v : String) : Except String String :=
  let s := pyStrip v
  if s.length = 0 then Except.error "This field may not be blank."
  else if 254 < s.length then
    Except.error "Ensure this field has no more than 254 characters."
  else if !emailWellFormed s then Except.error "Enter a valid email address."
  else Except.ok s

/-- Field pipeline of the `contact_phone` field: optional `CharField` with
`max_length=20`, blank allowed (`blank=True` on the model). -/
def validatePhoneField (v : String) : Except String String :=
  let s := pyStrip v
  if 20 < s.length then
    Except.error "Ensure this field has no more than 20 characters."
  else Except.ok s

/-- Field pipeline of the `status` field: DRF `ChoiceField` over
`STATUS_CHOICES`. -/
def validateStatusField (v : String) : Except String Status :=
  match parseStatus v with
  | some st => Except.ok st
  | none => Except.error "Not a valid choice."

/-- Run a field validator on a required field: a missing key is an error,
as DRF reports `This field is required.` keyed to the field. -/
def requiredField (name : String) (f : String → Except String α) :
    Option String → Except (String × String) α
  | none => Except.error (name, "This field is required.")
  | some v =>
    match f v with
    | Except.ok a => Except.ok a
    | Except.error m => Except.error (name, m)

/-- Run a field validator on an optional field: a missing key yields no
value and no error. -/
def optField (name : String) (f : String → Except String α) :
    Option String → Except (String × String) (Option α)
  | none => Except.ok none
  | some v =>
    match f v with
    | Except.ok a => Except.ok (some a)
    | Except.error m => Except.error (name, m)

/-- Error contribution of one field to the serializer error mapping. -/
def errOf : Except (String × String) α → List (String × String)
  | Except.error e => [e]
  | Except.ok _ => []

/-- Validated data of `TicketCreateSerializer` (fields `title`,
`description`, `contact_email`, `contact_phone`; no `status`). -/
structure CreateData where
  title : String
  description : String
  contact_email : String
  contact_phone : Option String
deriving DecidableEq, Repr

/-- Result of the `title` field in the create serializer (required). -/
def crT (b : Body) : Except (String × String) String :=
  requiredField "title" validateTitleField b.title

/-- Result of the `description` field in the create serializer (required). -/
def crD (b : Body) : Except (String × String) String :=
  requiredField "description" validateDescriptionField b.description

/-- Result of the `contact_email` field in the create serializer (required). -/
def crE (b : Body) : Except (String × String) String :=
  requiredField "contact_email" validateEmailField b.contact_email

/-- Result of the `contact_phone` field in the create serializer (optional). -/
def crP (b : Body) : Except (String × String) (Option String) :=
  optField "contact_phone" validatePhoneField b.contact_phone

/-- `TicketCreateSerializer.is_valid`: every declared field is validated
and all field errors are collected into one mapping (DRF
`Serializer.to_internal_value` is not fail-fast).  `title`, `description`
and `contact_email` are required; `contact_phone` is optional. -/
def ticketCreateValidate (b : Body) :
    Except (List (String × String)) CreateData :=
  match crT b, crD b, crE b, crP b with
  | Except.ok t, Except.ok d, Except.ok e, Except.ok p =>
      Except.ok ⟨t, d, e, p⟩
  | rt, rd, re, rp =>
      Except.error (errOf rt ++ errOf rd ++ errOf re ++ errOf rp)

/-- Validated data of `TicketUpdateSerializer`: each field is present in
`validated_data` exactly when it was supplied in the body. -/
structure UpdateData where
  title : Option String
  description : Option String
  contact_email : Option String
  contact_phone : Option String
  status : Option Status
deriving DecidableEq, Repr

/-- Run a field validator on a field that is required exactly when
`allowMissing` is false (DRF: required fields under `partial=False`,
optional under `partial=True`). -/
def reqOrOpt (allowMissing : Bool) (name : String)
    (f : String → Except String α) (v : Option String) :
    Except (String × String) (Option α) :=
  if allowMissing then optField name f v
  else
    match requiredField name f v with
    | Except.ok a => Except.ok (some a)
    | Except.error e => Except.error e

/-- Result of the `title` field in the update serializer. -/
def upT (am : Bool) (b : Body) : Except (String × String) (Option String) :=
  reqOrOpt am "title" validateTitleField b.title

/-- Result of the `description` field in the update serializer. -/
def upD (am : Bool) (b : Body) : Except (String × String) (Option String) :=
  reqOrOpt am "description" validateDescriptionField b.description

/-- Result of the `contact_email` field in the update serializer. -/
def upE (am : Bool) (b : Body) : Except (String × String) (Option String) :=
  reqOrOpt am "contact_email" validateEmailField b.contact_email

/-- Result of the `contact_phone` field in the update serializer (never
required: `blank=True, null=True` on the model). -/
def upP (b : Body) : Except (String × String) (Option String) :=
  optField "contact_phone" validatePhoneField b.contact_phone

/-- Result of the `status` field in the update serializer (never required:
the model supplies the default `pending`). -/
def upS (b : Body) : Except (String × String) (Option Status) :=
  optField "status" validateStatusField b.status

/-- `TicketUpdateSerializer.is_valid` with the `partial` flag
(`allowMissing`).  When `allowMissing` is false (a PUT), the fields with
neither a default nor `blank=True` on the model — `title`, `description`,
`contact_email` — are required; `status` (model default `pending`) and
`contact_phone` (optional) are never required.  When `allowMissing` is true
(a PATCH), every missing field is simply left out of the validated data.
All field errors are collected, not fail-fast. -/
def ticketUpdateValidate (am : Bool) (b : Body) :
    Except (List (String × String)) UpdateData :=
  match upT am b, upD am b, upE am b, upP b, upS b with
  | Except.ok t, Except.ok d, Except.ok e, Except.ok p, Except.ok s =>
      Except.ok ⟨t, d, e, p, s⟩
  | rt, rd, re, rp, rs =>
      Except.error (errOf rt ++ errOf rd ++ errOf re ++ errOf rp ++ errOf rs)

/-- `TicketListCreateAPIView.create` (`views.py`): validate with the create
serializer; on success save a new row (id assigned from the sequence,
`status` from the model default `pending`, `created_at`/`updated_at` from
`auto_now_add`/`auto_now` at save time) and return it with `201`; on
failure return the error mapping with `400` and touch nothing. -/
def createTicket (now : Nat) (b : Body) (db : Store) :
    Except (List (String × String)) (Store × Ticket) :=
  match ticketCreateValidate b with
  | Except.error es => Except.error es
  | Except.ok cd =>
      let t : Ticket :=
        { id := db.nextId
          title := cd.title
          description := cd.description
          contact_email := cd.contact_email
          contact_phone := cd.contact_phone
          status := Status.pending
          created_at := now
          updated_at := now }
      Except.ok (⟨db.tickets ++ [t], db.nextId + 1⟩, t)

/-- `get_object`: primary-key lookup in the queryset. -/
def findTicket (tid : Nat) (db : Store) : Option Ticket :=
  db.tickets.find? (fun t => t.id = tid)

/-- `ModelSerializer.update` followed by `save()`: each field present in
`validated_data` is assigned, the others keep their prior values, and
`auto_now` refreshes `updated_at`.  `id` and `created_at` are untouched. -/
def applyUpdate (now : Nat) (ud : UpdateData) (t : Ticket) : Ticket :=
  { t with
      title := ud.title.getD t.title
      description := ud.description.getD t.description
      contact_email := ud.contact_email.getD t.contact_email
      contact_phone :=
        match ud.contact_phone with
        | some p => some p
        | none => t.contact_phone
      status := ud.status.getD t.status
      updated_at := now }

/-- Replace the row with primary key `tid` by `t2` (the effect of saving the
updated instance back to its row). -/
def replaceTicket (tid : Nat) (t2 : Ticket) (l : List Ticket) : List Ticket :=
  l.map (fun u => if u.id = tid then t2 else u)

/-- Outcome of `TicketRetrieveUpdateAPIView.update`: `404`, `400` with the
field-error mapping, or `200` with the updated store and ticket. -/
inductive UpdateResult
  | notFound
  | invalid (errors : List (String × String))
  | ok (db : Store) (t : Ticket)
deriving DecidableEq, Repr

/-- `TicketRetrieveUpdateAPIView.update` (`views.py`): `get_object` (404
when the id is unknown), then the update serializer with
`partial = allowMissing` — DRF dispatches PUT with `partial=False` and
PATCH with `partial=True` — then save on success.  On validation failure
the store is untouched. -/
def updateTicket (now : Nat) (allowMissing : Bool) (tid : Nat) (b : Body)
    (db : Store) : UpdateResult :=
  match findTicket tid db with
  | none => UpdateResult.notFound
  | some t =>
      match ticketUpdateValidate allowMissing b with
      | Except.error es => UpdateResult.invalid es
      | Except.ok ud =>
          let t2 := applyUpdate now ud t
          UpdateResult.ok ⟨replaceTicket tid t2 db.tickets, db.nextId⟩ t2

/-- Query parameters of a list request (`request.query_params`).  `none`
means the parameter is absent.  `created_after` / `created_before` are
carried as already-parsed timestamps. -/
structure ListParams where
  status : Option String
  search : Option String
  created_after : Option Nat
  created_before : Option Nat
deriving DecidableEq, Repr

/-- Python truthiness of `request.query_params.get(key, None)`: present and
non-empty. -/
def truthyParam : Option String → Bool
  | none => false
  | some s => !s.isEmpty

/-- Search predicate of `get_queryset`:
`Q(title__icontains=search) | Q(description__icontains=search) |
Q(contact_email__icontains=search)`. -/
def matchesSearch (q : String) (t : Ticket) : Bool :=
  icontains q t.title || icontains q t.description || icontains q t.contact_email

/-- `TicketListCreateAPIView.get_queryset` (`views.py`): start from all
tickets; when the `status` parameter is truthy filter on status equality;
when the `search` parameter is truthy filter on the three-field
case-insensitive disjunction.  No other parameter is read: in particular
`created_after` and `created_before` are ignored here. -/
def getQueryset (p : ListParams) (db : Store) : List Ticket :=
  let q1 :=
    match p.status with
    | some sv => if sv.isEmpty then db.tickets
                 else db.tickets.filter (fun t => statusStr t.status = sv)
    | none => db.tickets
  match p.search with
  | some q => if q.isEmpty then q1 else q1.filter (matchesSearch q)
  | none => q1

/-- `DjangoFilterBackend` with `filterset_fields = ['status']` (the only
backend filter the view installs; the `TicketFilter` class of `filters.py`,
which also declares `created_after`/`created_before`, is never referenced
by any view).  An absent or empty `status` value is skipped; a non-empty
value must be one of the choices, otherwise the filterset is invalid and
the request fails with `400`. -/
def backendFilter (p : ListParams) (ts : List Ticket) :
    Except (List (String × String)) (List Ticket) :=
  match p.status with
  | none => Except.ok ts
  | some sv =>
      if sv.isEmpty then Except.ok ts
      else
        match parseStatus sv with
        | some st => Except.ok (ts.filter (fun t => t.status = st))
        | none =>
            Except.error
              [("status", "Select a valid choice. That choice is not one of the available choices.")]

/-- The full list pipeline of `GET /tickets/`: `get_queryset` followed by
the installed filter backend. -/
def listTickets (p : ListParams) (db : Store) :
    Except (List (String × String)) (List Ticket) :=
  backendFilter p (getQueryset p db)

/-- Modelled after `TicketFilter` in `filters.py` (this class is defined in
the repository but installed nowhere): the row predicate its
`created_after`/`created_before` filters would impose — inclusive bounds on
`created_at` (`lookup_expr` `gte` / `lte`). -/
def ticketFilterDatePred (after before : Option Nat) (t : Ticket) : Bool :=
  (match after with | some a => a ≤ t.created_at | none => true) &&
  (match before with | some b => t.created_at ≤ b | none => true)

/-- Counts returned by `GET /tickets/stats/`. -/
structure Stats where
  total : Nat
  pending : Nat
  accepted : Nat
  resolved : Nat
  rejected : Nat
deriving DecidableEq, Repr

/-- `ticket_stats` (`views.py`): `Ticket.objects.count()` and one
`filter(status=...).count()` per status value, over the unfiltered
collection. -/
def ticket_stats (db : Store) : Stats :=
  { total := db.tickets.length
    pending := (db.tickets.filter (fun t => t.status = Status.pending)).length
    accepted := (db.tickets.filter (fun t => t.status = Status.accepted)).length
    resolved := (db.tickets.filter (fun t => t.status = Status.resolved)).length
    rejected := (db.tickets.filter (fun t => t.status = Status.rejected)).length }

/-- Editable fields of the admin change form (`admin.py` fieldsets:
`title`, `description`, `status`, `contact_email`, `contact_phone`;
`created_at`/`updated_at` are in `readonly_fields`, `id` is never
editable). -/
structure AdminForm where
  title : String
  description : String
  contact_email : String
  contact_phone : Option String
  status : Status
deriving DecidableEq, Repr

/-- Saving the admin change form: assign the editable fields; `auto_now`
refreshes `updated_at`; `id` and `created_at` are untouched. -/
def adminApply (now : Nat) (f : AdminForm) (t : Ticket) : Ticket :=
  { t with
      title := f.title
      description := f.description
      contact_email := f.contact_email
      contact_phone := f.contact_phone
      status := f.status
      updated_at := now }

/-- Every request reachable through the public interface: the three routes
of `urls.py` (`tickets/` with GET and POST, `tickets/<pk>/` with GET, PUT
and PATCH, `tickets/stats/` with GET) plus the admin console, whose only
write operation is the change form — `TicketAdmin.has_delete_permission`
returns `False`, so no delete action exists.  No constructor deletes. -/
inductive Request
  | listReq (p : ListParams)
  | createReq (now : Nat) (b : Body)
  | retrieveReq (tid : Nat)
  | putReq (now : Nat) (tid : Nat) (b : Body)
  | patchReq (now : Nat) (tid : Nat) (b : Body)
  | statsReq
  | adminEditReq (now : Nat) (tid : Nat) (f : AdminForm)

/-- Effect of one request on the store.  Read-only requests leave it
unchanged; a failed create or update leaves it unchanged (validation runs
fully before any persistence step). -/
def stepStore (r : Request) (db : Store) : Store :=
  match r with
  | Request.listReq _ => db
  | Request.retrieveReq _ => db
  | Request.statsReq => db
  | Request.createReq now b =>
      match createTicket now b db with
      | Except.ok (db2, _) => db2
      | Except.error _ => db
  | Request.putReq now tid b =>
      match updateTicket now false tid b db with
      | UpdateResult.ok db2 _ => db2
      | _ => db
  | Request.patchReq now tid b =>
      match updateTicket now true tid b db with
      | UpdateResult.ok db2 _ => db2
      | _ => db
  | Request.adminEditReq now tid f =>
      match findTicket tid db with
      | some t => ⟨replaceTicket tid (adminApply now f t) db.tickets, db.nextId⟩
      | none => db

/-- Effect of a sequence of requests. -/
def runRequests (rs : List Request) (db : Store) : Store :=
  rs.foldl (fun d r => stepStore r d) db

/-! ### Helper lemmas about the field validators -/

theorem mem_errOf {r : Except (String × String) α} {x : String × String} :
    x ∈ errOf r ↔ r = Except.error x := by
  cases r <;> simp [errOf, eq_comm]

theorem requiredField_error_name {name : String} {f : String → Except String α}
    {v : Option String} {e : String × String}
    (h : requiredField name f v = Except.error e) : e.1 = name := by
  cases v with
  | none => simp [requiredField] at h; simp [← h]
  | some w =>
    simp only [requiredField] at h
    cases hw : f w with
    | ok a => rw [hw] at h; simp at h
    | error m => rw [hw] at h; simp at h; simp [← h]

theorem optField_error_name {name : String} {f : String → Except String α}
    {v : Option String} {e : String × String}
    (h : optField name f v = Except.error e) : e.1 = name := by
  cases v with
  | none => simp [optField] at h
  | some w =>
    simp only [optField] at h
    cases hw : f w with
    | ok a => rw [hw] at h; simp at h
    | error m => rw [hw] at h; simp at h; simp [← h]

theorem reqOrOpt_error_name {am : Bool} {name : String}
    {f : String → Except String α} {v : Option String} {e : String × String}
    (h : reqOrOpt am name f v = Except.error e) : e.1 = name := by
  cases am with
  | true => exact optField_error_name (by simpa [reqOrOpt] using h)
  | false =>
    simp only [reqOrOpt, if_neg] at h
    cases hr : requiredField name f v with
    | ok a => rw [hr] at h; simp at h
    | error e2 =>
      rw [hr] at h; simp at h
      exact h ▸ requiredField_error_name hr

theorem reqOrOpt_some (am : Bool) (name : String)
    (f : String → Except String α) (v : String) :
    reqOrOpt am name f (some v) = optField name f (some v) := by
  cases am <;> cases hw : f v <;>
    simp [reqOrOpt, requiredField, optField, hw]

theorem reqOrOpt_none_false (name : String) (f : String → Except String α) :
    reqOrOpt false name f none =
      Except.error (name, "This field is required.") := rfl

theorem statusStr_parseStatus (st : Status) :
    parseStatus (statusStr st) = some st := by
  cases st <;> rfl

theorem parseStatus_inv {sv : String} {st : Status}
    (h : parseStatus sv = some st) : statusStr st = sv := by
  unfold parseStatus at h
  split at h
  all_goals first
    | (injection h with h2; subst h2; rfl)
    | simp at h

theorem statusStr_inj {a b : Status} (h : statusStr a = statusStr b) :
    a = b := by
  cases a <;> cases b <;> simp_all [statusStr]

theorem validateTitleField_error_iff (v : String) :
    (∃ m, validateTitleField v = Except.error m) ↔
      ((pyStrip v).length < 3 ∨ 200 < (pyStrip v).length) := by
  simp only [validateTitleField]
  split_ifs <;> (simp; omega)

theorem validateTitleField_ok {v s : String}
    (h : validateTitleField v = Except.ok s) : s = pyStrip v := by
  simp only [validateTitleField] at h
  split_ifs at h
  all_goals simp_all

theorem validateDescriptionField_error_iff (v : String) :
    (∃ m, validateDescriptionField v = Except.error m) ↔
      (pyStrip v).length < 10 := by
  simp only [validateDescriptionField]
  split_ifs <;> (simp; omega)

theorem validateDescriptionField_ok {v s : String}
    (h : validateDescriptionField v = Except.ok s) : s = pyStrip v := by
  simp only [validateDescriptionField] at h
  split_ifs at h
  all_goals simp_all

theorem errOf_eq_nil {r : Except (String × String) α} (h : errOf r = []) :
    ∃ a, r = Except.ok a := by
  cases r <;> simp_all [errOf]

/-! ### Shape of the create-serializer result -/

theorem createValidate_ok_of_fields {b : Body} {t d e : String} {p : Option String}
    (h1 : crT b = Except.ok t) (h2 : crD b = Except.ok d)
    (h3 : crE b = Except.ok e) (h4 : crP b = Except.ok p) :
    ticketCreateValidate b = Except.ok ⟨t, d, e, p⟩ := by
  unfold ticketCreateValidate
  rw [h1, h2, h3, h4]

theorem createValidate_error_eq {b : Body} {es : List (String × String)}
    (h : ticketCreateValidate b = Except.error es) :
    es = errOf (crT b) ++ errOf (crD b) ++ errOf (crE b) ++ errOf (crP b) := by
  unfold ticketCreateValidate at h
  split at h
  · simp at h
  · simp only [Except.error.injEq] at h
    exact h.symm

theorem createValidate_ok_inv {b : Body} {cd : CreateData}
    (h : ticketCreateValidate b = Except.ok cd) :
    crT b = Except.ok cd.title ∧ crD b = Except.ok cd.description ∧
      crE b = Except.ok cd.contact_email ∧ crP b = Except.ok cd.contact_phone := by
  unfold ticketCreateValidate at h
  split at h
  case _ t d e p heq1 heq2 heq3 heq4 =>
    simp only [Except.ok.injEq] at h
    subst h
    exact ⟨heq1, heq2, heq3, heq4⟩
  case _ => simp at h

theorem createValidate_error_ne_nil {b : Body} {es : List (String × String)}
    (h : ticketCreateValidate b = Except.error es) : es ≠ [] := by
  intro hnil
  have hshape := (hnil ▸ createValidate_error_eq h).symm
  simp only [List.append_eq_nil] at hshape
  obtain ⟨⟨⟨ht0, hd0⟩, he0⟩, hp0⟩ := hshape
  obtain ⟨t, ht⟩ := errOf_eq_nil ht0
  obtain ⟨d, hd⟩ := errOf_eq_nil hd0
  obtain ⟨e, he⟩ := errOf_eq_nil he0
  obtain ⟨p, hp⟩ := errOf_eq_nil hp0
  rw [createValidate_ok_of_fields ht hd he hp] at h
  exact Except.noConfusion h

/-! ### Shape of the update-serializer result -/

theorem updValidate_ok_of_fields {am : Bool} {b : Body}
    {t d e p : Option String} {s : Option Status}
    (h1 : upT am b = Except.ok t) (h2 : upD am b = Except.ok d)
    (h3 : upE am b = Except.ok e) (h4 : upP b = Except.ok p)
    (h5 : upS b = Except.ok s) :
    ticketUpdateValidate am b = Except.ok ⟨t, d, e, p, s⟩ := by
  unfold ticketUpdateValidate
  rw [h1, h2, h3, h4, h5]

theorem updValidate_error_eq {am : Bool} {b : Body} {es : List (String × String)}
    (h : ticketUpdateValidate am b = Except.error es) :
    es = errOf (upT am b) ++ errOf (upD am b) ++ errOf (upE am b) ++
      errOf (upP b) ++ errOf (upS b) := by
  unfold ticketUpdateValidate at h
  split at h
  · simp at h
  · simp only [Except.error.injEq] at h
    exact h.symm

theorem updValidate_ok_inv {am : Bool} {b : Body} {ud : UpdateData}
    (h : ticketUpdateValidate am b = Except.ok ud) :
    upT am b = Except.ok ud.title ∧ upD am b = Except.ok ud.description ∧
      upE am b = Except.ok ud.contact_email ∧ upP b = Except.ok ud.contact_phone ∧
      upS b = Except.ok ud.status := by
  unfold ticketUpdateValidate at h
  split at h
  case _ t d e p s heq1 heq2 heq3 heq4 heq5 =>
    simp only [Except.ok.injEq] at h
    subst h
    exact ⟨heq1, heq2, heq3, heq4, heq5⟩
  case _ => simp at h

theorem updValidate_error_ne_nil {am : Bool} {b : Body}
    {es : List (String × String)}
    (h : ticketUpdateValidate am b = Except.error es) : es ≠ [] := by
  intro hnil
  have hshape := (hnil ▸ updValidate_error_eq h).symm
  simp only [List.append_eq_nil] at hshape
  obtain ⟨⟨⟨⟨ht0, hd0⟩, he0⟩, hp0⟩, hs0⟩ := hshape
  obtain ⟨t, ht⟩ := errOf_eq_nil ht0
  obtain ⟨d, hd⟩ := errOf_eq_nil hd0
  obtain ⟨e, he⟩ := errOf_eq_nil he0
  obtain ⟨p, hp⟩ := errOf_eq_nil hp0
  obtain ⟨s, hs⟩ := errOf_eq_nil hs0
  rw [updValidate_ok_of_fields ht hd he hp hs] at h
  exact Except.noConfusion h

/-! ### Primary-key lookup lemmas -/

theorem applyUpdate_id (now : Nat) (ud : UpdateData) (t : Ticket) :
    (applyUpdate now ud t).id = t.id := rfl

theorem applyUpdate_created_at (now : Nat) (ud : UpdateData) (t : Ticket) :
    (applyUpdate now ud t).created_at = t.created_at := rfl

theorem adminApply_id (now : Nat) (f : AdminForm) (t : Ticket) :
    (adminApply now f t).id = t.id := rfl

theorem adminApply_created_at (now : Nat) (f : AdminForm) (t : Ticket) :
    (adminApply now f t).created_at = t.created_at := rfl

theorem find?_replace_self {l : List Ticket} {tid : Nat} {t t2 : Ticket}
    (h : l.find? (fun u => u.id = tid) = some t) (h2 : t2.id = tid) :
    (replaceTicket tid t2 l).find? (fun u => u.id = tid) = some t2 := by
  induction l with
  | nil => simp at h
  | cons a l ih =>
    by_cases ha : a.id = tid
    · simp [replaceTicket, List.find?_cons, ha, h2]
    · rw [List.find?_cons] at h
      rw [decide_eq_false ha] at h
      simp only [replaceTicket, List.map_cons, if_neg ha]
      rw [List.find?_cons, decide_eq_false ha]
      exact ih h

theorem find?_replace_other {l : List Ticket} {tid tid2 : Nat} {t2 : Ticket}
    (h2 : t2.id = tid2) (hne : tid ≠ tid2) :
    (replaceTicket tid2 t2 l).find? (fun u => u.id = tid) =
      l.find? (fun u => u.id = tid) := by
  induction l with
  | nil => rfl
  | cons a l ih =>
    by_cases ha : a.id = tid2
    · have hat : (a.id = tid) = False := by
        simp only [eq_iff_iff, iff_false]
        intro hx; exact hne (hx ▸ ha ▸ rfl)
      have ht2 : (t2.id = tid) = False := by
        simp only [eq_iff_iff, iff_false]
        intro hx; exact hne (hx ▸ h2 ▸ rfl)
      simp only [replaceTicket, List.map_cons, if_pos ha]
      rw [List.find?_cons, List.find?_cons]
      rw [decide_eq_false (fun hx => hne (hx.symm.trans h2)),
        decide_eq_false (fun hx => hne (hx.symm.trans ha))]
      exact ih
    · simp only [replaceTicket, List.map_cons, if_neg ha]
      rw [List.find?_cons, List.find?_cons]
      cases hd : decide (a.id = tid)
      · exact ih
      · rfl

theorem findTicket_id {db : Store} {tid : Nat} {t : Ticket}
    (h : findTicket tid db = some t) : t.id = tid := by
  have := List.find?_some h
  exact of_decide_eq_true this

theorem findTicket_append {db : Store} {tid : Nat} {t x : Ticket} {n : Nat}
    (h : findTicket tid db = some t) :
    findTicket tid ⟨db.tickets ++ [x], n⟩ = some t := by
  unfold findTicket at h ⊢
  rw [List.find?_append, h]
  rfl

theorem findTicket_updateTicket {now : Nat} {am : Bool} {tid2 : Nat} {b : Body}
    {db db2 : Store} {t2 : Ticket}
    (hu : updateTicket now am tid2 b db = UpdateResult.ok db2 t2)
    {tid : Nat} {t : Ticket} (h : findTicket tid db = some t) :
    ∃ t3, findTicket tid db2 = some t3 ∧ t3.id = t.id ∧
      t3.created_at = t.created_at := by
  unfold updateTicket at hu
  cases hf : findTicket tid2 db with
  | none => rw [hf] at hu; exact absurd hu (by simp)
  | some t0 =>
    rw [hf] at hu
    cases hv : ticketUpdateValidate am b with
    | error es => rw [hv] at hu; exact absurd hu (by simp)
    | ok ud =>
      rw [hv] at hu
      simp only [UpdateResult.ok.injEq] at hu
      obtain ⟨hdb2, ht2⟩ := hu
      have ht0 : t0.id = tid2 := findTicket_id hf
      by_cases he : tid = tid2
      · subst he
        rw [h] at hf
        injection hf with hf0
        subst hf0
        refine ⟨applyUpdate now ud t, ?_, rfl, rfl⟩
        rw [← hdb2]
        unfold findTicket at h ⊢
        exact find?_replace_self h (by rw [applyUpdate_id]; exact ht0)
      · refine ⟨t, ?_, rfl, rfl⟩
        rw [← hdb2]
        unfold findTicket at h ⊢
        rw [@find?_replace_other db.tickets tid tid2 (applyUpdate now ud t0)
          (by rw [applyUpdate_id]; exact ht0) he]
        exact h

theorem findTicket_stepStore (r : Request) (db : Store) (tid : Nat) (t : Ticket)
    (h : findTicket tid db = some t) :
    ∃ t2, findTicket tid (stepStore r db) = some t2 ∧
      t2.id = t.id ∧ t2.created_at = t.created_at := by
  cases r with
  | listReq p => exact ⟨t, h, rfl, rfl⟩
  | retrieveReq i => exact ⟨t, h, rfl, rfl⟩
  | statsReq => exact ⟨t, h, rfl, rfl⟩
  | createReq now b =>
    simp only [stepStore]
    cases hc : createTicket now b db with
    | error es => exact ⟨t, h, rfl, rfl⟩
    | ok pr =>
      obtain ⟨db2, tnew⟩ := pr
      unfold createTicket at hc
      cases hv : ticketCreateValidate b with
      | error es => rw [hv] at hc; exact absurd hc (by simp)
      | ok cd =>
        rw [hv] at hc
        simp only [Except.ok.injEq, Prod.mk.injEq] at hc
        obtain ⟨hdb2, _⟩ := hc
        rw [← hdb2]
        exact ⟨t, findTicket_append h, rfl, rfl⟩
  | putReq now tid2 b =>
    simp only [stepStore]
    cases hu : updateTicket now false tid2 b db with
    | notFound => exact ⟨t, h, rfl, rfl⟩
    | invalid es => exact ⟨t, h, rfl, rfl⟩
    | ok db2 t2 => exact findTicket_updateTicket hu h
  | patchReq now tid2 b =>
    simp only [stepStore]
    cases hu : updateTicket now true tid2 b db with
    | notFound => exact ⟨t, h, rfl, rfl⟩
    | invalid es => exact ⟨t, h, rfl, rfl⟩
    | ok db2 t2 => exact findTicket_updateTicket hu h
  | adminEditReq now tid2 f =>
    simp only [stepStore]
    cases hf : findTicket tid2 db with
    | none => exact ⟨t, h, rfl, rfl⟩
    | some t0 =>
      have ht0 : t0.id = tid2 := findTicket_id hf
      by_cases he : tid = tid2
      · subst he
        rw [h] at hf
        injection hf with hf0
        subst hf0
        refine ⟨adminApply now f t, ?_, rfl, rfl⟩
        unfold findTicket at h ⊢
        exact find?_replace_self h (by rw [adminApply_id]; exact ht0)
      · refine ⟨t, ?_, rfl, rfl⟩
        unfold findTicket at h ⊢
        rw [@find?_replace_other db.tickets tid tid2 (adminApply now f t0)
          (by rw [adminApply_id]; exact ht0) he]
        exact h

/-! ### Concrete fixtures used by witnesses and counterexamples -/

/-- A stored ticket used as concrete test data. -/
def tkt0 : Ticket :=
  { id := 1
    title := "Printer broken"
    description := "The office printer is broken"
    contact_email := "a@b.com"
    contact_phone := some "123"
    status := Status.pending
    created_at := 5
    updated_at := 5 }

/-- A store holding `tkt0`. -/
def db0 : Store := ⟨[tkt0], 2⟩

/-- A body that supplies only `status`. -/
def onlyStatusBody : Body := ⟨none, none, none, none, some "resolved"⟩

/-- A body that supplies every updatable field. -/
def fullBody : Body :=
  ⟨some "New title ok", some "longer description here", some "q@r.st",
    some "555", some "accepted"⟩

/-- A valid create body. -/
def goodBody : Body :=
  ⟨some "Hi!", some "needs ten chars ok", some "x@y.io", none, none⟩

/-- A 201-character title (no surrounding whitespace). -/
def longTitle : String := String.mk (List.replicate 201 'a')

/-- A create body whose title exceeds the model max length of 200. -/
def bLong : Body :=
  ⟨some longTitle, some "a sufficiently long description", some "a@b.com",
    none, none⟩

/-- Sample ticket with a given id and status, for the stats example. -/
def mkStatusTicket (i : Nat) (st : Status) : Ticket :=
  { id := i
    title := "Sample ticket"
    description := "A sample ticket description"
    contact_email := "user@example.com"
    contact_phone := none
    status := st
    created_at := 0
    updated_at := 0 }

/-- A store with 3 pending + 2 accepted + 4 resolved + 1 rejected tickets. -/
def statsExampleStore : Store :=
  ⟨[mkStatusTicket 1 Status.pending, mkStatusTicket 2 Status.pending,
    mkStatusTicket 3 Status.pending, mkStatusTicket 4 Status.accepted,
    mkStatusTicket 5 Status.accepted, mkStatusTicket 6 Status.resolved,
    mkStatusTicket 7 Status.resolved, mkStatusTicket 8 Status.resolved,
    mkStatusTicket 9 Status.resolved, mkStatusTicket 10 Status.rejected], 11⟩

/-! ### Claim theorems -/

theorem count_status_filter (l : List Ticket) (st : Status) :
    (l.map Ticket.status).count st = (l.filter (fun t => t.status = st)).length := by
  induction l with
  | nil => rfl
  | cons a l ih =>
    by_cases h : a.status = st <;>
      simp [List.count_cons, List.filter_cons, h, ih]

/-- C2 (code bug): the claim says `created_after` / `created_before` impose
inclusive bounds on `created_at`, and `filters.py` defines exactly those
filters — but `TicketFilter` is never installed on the view
(`filterset_fields = ['status']`), so the list endpoint ignores both
parameters.  Concretely: `tkt0` has `created_at = 5`, yet a request with
`created_after = 10` still returns it, while the (dead) `TicketFilter`
predicate would have excluded it. -/
theorem C2_created_bounds_ignored :
    listTickets ⟨none, none, some 10, none⟩ db0 = Except.ok [tkt0] ∧
    tkt0.created_at < 10 ∧
    ticketFilterDatePred (some 10) none tkt0 = false := by
  refine ⟨rfl, by decide, rfl⟩

/-- C4: a successful create stores status `pending` and sets
`created_at = updated_at` (both to the request timestamp). -/
theorem C4_create_defaults (now : Nat) (b : Body) (db db2 : Store) (t : Ticket)
    (h : createTicket now b db = Except.ok (db2, t)) :
    t.status = Status.pending ∧ t.created_at = t.updated_at ∧
      t.created_at = now := by
  unfold createTicket at h
  cases hv : ticketCreateValidate b with
  | error es => rw [hv] at h; exact absurd h (by simp)
  | ok cd =>
    rw [hv] at h
    simp only [Except.ok.injEq, Prod.mk.injEq] at h
    obtain ⟨_, ht⟩ := h
    rw [← ht]
    exact ⟨rfl, rfl, rfl⟩

/-- Witness for C4 at a concrete valid create body. -/
theorem C4_create_defaults_witness :
    (⟨2, "Hi!", "needs ten chars ok", "x@y.io", none, Status.pending, 7, 7⟩ :
        Ticket).status = Status.pending ∧
    (⟨2, "Hi!", "needs ten chars ok", "x@y.io", none, Status.pending, 7, 7⟩ :
        Ticket).created_at =
      (⟨2, "Hi!", "needs ten chars ok", "x@y.io", none, Status.pending, 7, 7⟩ :
        Ticket).updated_at ∧
    (⟨2, "Hi!", "needs ten chars ok", "x@y.io", none, Status.pending, 7, 7⟩ :
        Ticket).created_at = 7 :=
  C4_create_defaults 7 goodBody db0
    ⟨[tkt0, ⟨2, "Hi!", "needs ten chars ok", "x@y.io", none, Status.pending, 7, 7⟩], 3⟩
    ⟨2, "Hi!", "needs ten chars ok", "x@y.io", none, Status.pending, 7, 7⟩ (by rfl)

/-- C8: the stats endpoint returns the size of the unfiltered collection
and one per-status count, and on a store with 3 pending + 2 accepted +
4 resolved + 1 rejected it returns exactly
`{total: 10, pending: 3, accepted: 2, resolved: 4, rejected: 1}`. -/
theorem C8_stats_counts :
    (∀ db : Store,
      (ticket_stats db).total = db.tickets.length ∧
      (ticket_stats db).pending = (db.tickets.map Ticket.status).count Status.pending ∧
      (ticket_stats db).accepted = (db.tickets.map Ticket.status).count Status.accepted ∧
      (ticket_stats db).resolved = (db.tickets.map Ticket.status).count Status.resolved ∧
      (ticket_stats db).rejected = (db.tickets.map Ticket.status).count Status.rejected) ∧
    ticket_stats statsExampleStore =
      { total := 10, pending := 3, accepted := 2, resolved := 4, rejected := 1 } := by
  refine ⟨fun db => ⟨rfl, ?_, ?_, ?_, ?_⟩, by decide⟩ <;>
    rw [count_status_filter] <;> rfl

/-- C10: a present-but-empty `status` or `search` parameter is not applied
at all — the result equals that of the same request with the parameter
omitted (both the view's truthiness test and the filter backend skip empty
values). -/
theorem C10_empty_params_no_filter (p : ListParams) (db : Store) :
    listTickets { p with status := some "" } db =
      listTickets { p with status := none } db ∧
    listTickets { p with search := some "" } db =
      listTickets { p with search := none } db := by
  have h0 : ("" : String).isEmpty = true := rfl
  constructor
  · unfold listTickets backendFilter getQueryset
    cases p.search <;> simp [h0]
  · unfold listTickets backendFilter getQueryset
    cases p.status <;> simp [h0]

/-- C1 counterexample: with a body that supplies only `status`, PUT
(dispatched with `partial=False`) is rejected with required-field errors
while PATCH on the same body succeeds and merges — so PUT and PATCH do not
have identical partial-merge semantics and a PUT omitting
title/description/contact_email does not succeed. -/
theorem C1_put_not_partial_counterexample :
    updateTicket 9 false 1 onlyStatusBody db0 =
      UpdateResult.invalid
        [("title", "This field is required."),
         ("description", "This field is required."),
         ("contact_email", "This field is required.")] ∧
    updateTicket 9 true 1 onlyStatusBody db0 =
      UpdateResult.ok
        ⟨[{ tkt0 with status := Status.resolved, updated_at := 9 }], 2⟩
        { tkt0 with status := Status.resolved, updated_at := 9 } := by
  exact ⟨rfl, rfl⟩

/-- C1 (amended): PUT and PATCH run the same update path and agree whenever
the body supplies `title`, `description` and `contact_email`; but PUT runs
with `partial=False`, so a body omitting any of those required fields is
rejected with a 400 whose mapping requires each missing field — only PATCH
applies partial-merge to bodies with omitted required fields. -/
theorem C1_put_patch_amended (now tid : Nat) (b : Body) (db : Store) :
    (b.title.isSome → b.description.isSome → b.contact_email.isSome →
      updateTicket now false tid b db = updateTicket now true tid b db) ∧
    ((b.title = none ∨ b.description = none ∨ b.contact_email = none) →
      (findTicket tid db).isSome →
      ∃ es, updateTicket now false tid b db = UpdateResult.invalid es ∧
        (b.title = none → ("title", "This field is required.") ∈ es) ∧
        (b.description = none →
          ("description", "This field is required.") ∈ es) ∧
        (b.contact_email = none →
          ("contact_email", "This field is required.") ∈ es)) := by
  constructor
  · intro ht hd he
    obtain ⟨tv, htv⟩ := Option.isSome_iff_exists.mp ht
    obtain ⟨dv, hdv⟩ := Option.isSome_iff_exists.mp hd
    obtain ⟨ev, hev⟩ := Option.isSome_iff_exists.mp he
    have hT : upT false b = upT true b := by
      unfold upT; rw [htv, reqOrOpt_some, reqOrOpt_some]
    have hD : upD false b = upD true b := by
      unfold upD; rw [hdv, reqOrOpt_some, reqOrOpt_some]
    have hE : upE false b = upE true b := by
      unfold upE; rw [hev, reqOrOpt_some, reqOrOpt_some]
    have hval : ticketUpdateValidate false b = ticketUpdateValidate true b := by
      unfold ticketUpdateValidate
      rw [hT, hD, hE]
    unfold updateTicket
    rw [hval]
  · intro hmiss hf
    obtain ⟨t0, hft⟩ := Option.isSome_iff_exists.mp hf
    have hTn : b.title = none →
        upT false b = Except.error ("title", "This field is required.") := by
      intro h; unfold upT; rw [h]; rfl
    have hDn : b.description = none →
        upD false b =
          Except.error ("description", "This field is required.") := by
      intro h; unfold upD; rw [h]; rfl
    have hEn : b.contact_email = none →
        upE false b =
          Except.error ("contact_email", "This field is required.") := by
      intro h; unfold upE; rw [h]; rfl
    cases hv : ticketUpdateValidate false b with
    | ok ud =>
      obtain ⟨o1, o2, o3, _, _⟩ := updValidate_ok_inv hv
      rcases hmiss with h | h | h
      · rw [hTn h] at o1; exact absurd o1 (by simp)
      · rw [hDn h] at o2; exact absurd o2 (by simp)
      · rw [hEn h] at o3; exact absurd o3 (by simp)
    | error es =>
      refine ⟨es, ?_, ?_, ?_, ?_⟩
      · unfold updateTicket
        rw [hft, hv]
      · intro h
        rw [updValidate_error_eq hv]
        exact List.mem_append_left _ (List.mem_append_left _
          (List.mem_append_left _ (List.mem_append_left _
            (mem_errOf.mpr (hTn h)))))
      · intro h
        rw [updValidate_error_eq hv]
        exact List.mem_append_left _ (List.mem_append_left _
          (List.mem_append_left _ (List.mem_append_right _
            (mem_errOf.mpr (hDn h)))))
      · intro h
        rw [updValidate_error_eq hv]
        exact List.mem_append_left _ (List.mem_append_left _
          (List.mem_append_right _ (mem_errOf.mpr (hEn h))))

/-- Witness for C1 at concrete inputs: a full body makes PUT and PATCH
agree, and a status-only body (all three required fields omitted) makes PUT
fail requiring `title`, `description` and `contact_email`. -/
theorem C1_put_patch_witness :
    updateTicket 9 false 1 fullBody db0 = updateTicket 9 true 1 fullBody db0 ∧
    ∃ es, updateTicket 9 false 1 onlyStatusBody db0 = UpdateResult.invalid es ∧
      (onlyStatusBody.title = none →
        ("title", "This field is required.") ∈ es) ∧
      (onlyStatusBody.description = none →
        ("description", "This field is required.") ∈ es) ∧
      (onlyStatusBody.contact_email = none →
        ("contact_email", "This field is required.") ∈ es) :=
  ⟨(C1_put_patch_amended 9 1 fullBody db0).1 rfl rfl rfl,
   (C1_put_patch_amended 9 1 onlyStatusBody db0).2 (Or.inl rfl) rfl⟩

/-- C6: a partial update supplying only `status` changes only `status` and
`updated_at`; `title`, `description`, `contact_email`, `contact_phone`,
`created_at` (and `id`) keep their pre-update values. -/
theorem C6_partial_status_frame (now tid : Nat) (db : Store) (t : Ticket)
    (sv : String) (st : Status)
    (hf : findTicket tid db = some t) (hs : parseStatus sv = some st) :
    ∃ db2 t2,
      updateTicket now true tid ⟨none, none, none, none, some sv⟩ db =
        UpdateResult.ok db2 t2 ∧
      t2.title = t.title ∧ t2.description = t.description ∧
      t2.contact_email = t.contact_email ∧
      t2.contact_phone = t.contact_phone ∧
      t2.created_at = t.created_at ∧ t2.id = t.id ∧
      t2.status = st ∧ t2.updated_at = now := by
  have hval : ticketUpdateValidate true ⟨none, none, none, none, some sv⟩ =
      Except.ok ⟨none, none, none, none, some st⟩ := by
    unfold ticketUpdateValidate upT upD upE upP upS
    simp [reqOrOpt, optField, validateStatusField, hs]
  refine ⟨⟨replaceTicket tid
      (applyUpdate now ⟨none, none, none, none, some st⟩ t) db.tickets,
      db.nextId⟩,
    applyUpdate now ⟨none, none, none, none, some st⟩ t,
    ?_, rfl, rfl, rfl, rfl, rfl, rfl, rfl, rfl⟩
  unfold updateTicket
  rw [hf, hval]

/-- Witness for C6: resolving `tkt0` in `db0` keeps every other field. -/
theorem C6_partial_status_frame_witness :
    ∃ db2 t2,
      updateTicket 9 true 1 ⟨none, none, none, none, some "resolved"⟩ db0 =
        UpdateResult.ok db2 t2 ∧
      t2.title = tkt0.title ∧ t2.description = tkt0.description ∧
      t2.contact_email = tkt0.contact_email ∧
      t2.contact_phone = tkt0.contact_phone ∧
      t2.created_at = tkt0.created_at ∧ t2.id = tkt0.id ∧
      t2.status = Status.resolved ∧ t2.updated_at = 9 :=
  C6_partial_status_frame 9 1 db0 tkt0 "resolved" Status.resolved rfl rfl


/-! ### Field-level inversion lemmas for C3 -/

theorem requiredField_ok_val {name : String} {f : String → Except String α}
    {v : String} {a : α} (h : requiredField name f (some v) = Except.ok a) :
    f v = Except.ok a := by
  have h2 : (match f v with
      | Except.ok a => Except.ok a
      | Except.error m => Except.error (name, m)) = Except.ok a := h
  cases hv : f v with
  | ok a2 => rw [hv] at h2; simp_all
  | error m => rw [hv] at h2; simp_all

theorem optField_ok_val {name : String} {f : String → Except String α}
    {v : String} {oa : Option α}
    (h : optField name f (some v) = Except.ok oa) :
    ∃ a, oa = some a ∧ f v = Except.ok a := by
  have h2 : (match f v with
      | Except.ok a => Except.ok (some a)
      | Except.error m => Except.error (name, m)) = Except.ok oa := h
  cases hv : f v with
  | ok a2 => rw [hv] at h2; simp_all
  | error m => rw [hv] at h2; simp_all

theorem requiredField_some_error {name : String} {f : String → Except String α}
    {v : String} {m0 : String} (h : f v = Except.error m0) :
    requiredField name f (some v) = Except.error (name, m0) := by
  simp [requiredField, h]

theorem optField_some_error {name : String} {f : String → Except String α}
    {v : String} {m0 : String} (h : f v = Except.error m0) :
    optField name f (some v) = Except.error (name, m0) := by
  simp [optField, h]

theorem requiredField_some_error_inv {name : String}
    {f : String → Except String α} {v : String} {e : String × String}
    (h : requiredField name f (some v) = Except.error e) :
    f v = Except.error e.2 := by
  have h2 : (match f v with
      | Except.ok a => Except.ok a
      | Except.error m => Except.error (name, m)) = Except.error e := h
  cases hv : f v with
  | ok a2 => rw [hv] at h2; simp_all
  | error m =>
    rw [hv] at h2
    injection h2 with h3
    subst h3
    rfl

theorem optField_some_error_inv {name : String}
    {f : String → Except String α} {v : String} {e : String × String}
    (h : optField name f (some v) = Except.error e) :
    f v = Except.error e.2 := by
  have h2 : (match f v with
      | Except.ok a => Except.ok (some a)
      | Except.error m => Except.error (name, m)) = Except.error e := h
  cases hv : f v with
  | ok a2 => rw [hv] at h2; simp_all
  | error m =>
    rw [hv] at h2
    injection h2 with h3
    subst h3
    rfl

theorem create_title_err_iff {b : Body} {tv : String} (ht : b.title = some tv) :
    (∃ es, ticketCreateValidate b = Except.error es ∧ ∃ m, ("title", m) ∈ es) ↔
      (∃ m0, validateTitleField tv = Except.error m0) := by
  constructor
  · rintro ⟨es, hes, m, hm⟩
    rw [createValidate_error_eq hes] at hm
    rcases List.mem_append.mp hm with hm3 | hmP
    · rcases List.mem_append.mp hm3 with hm2 | hmE
      · rcases List.mem_append.mp hm2 with hmT | hmD
        · have hcr := mem_errOf.mp hmT
          unfold crT at hcr
          rw [ht] at hcr
          exact ⟨m, requiredField_some_error_inv hcr⟩
        · have hcr := mem_errOf.mp hmD
          unfold crD at hcr
          have hname := requiredField_error_name hcr
          simp at hname
      · have hcr := mem_errOf.mp hmE
        unfold crE at hcr
        have hname := requiredField_error_name hcr
        simp at hname
    · have hcr := mem_errOf.mp hmP
      unfold crP at hcr
      have hname := optField_error_name hcr
      simp at hname
  · rintro ⟨m0, hm0⟩
    have hT : crT b = Except.error ("title", m0) := by
      unfold crT; rw [ht]
      exact requiredField_some_error hm0
    cases hv : ticketCreateValidate b with
    | ok cd =>
      have hok := (createValidate_ok_inv hv).1
      rw [hT] at hok
      exact absurd hok (by simp)
    | error es =>
      refine ⟨es, rfl, m0, ?_⟩
      rw [createValidate_error_eq hv]
      refine List.mem_append_left _ (List.mem_append_left _
        (List.mem_append_left _ ?_))
      rw [hT]; simp [errOf]

theorem create_descr_err_iff {b : Body} {dv : String}
    (hd : b.description = some dv) :
    (∃ es, ticketCreateValidate b = Except.error es ∧
        ∃ m, ("description", m) ∈ es) ↔
      (∃ m0, validateDescriptionField dv = Except.error m0) := by
  constructor
  · rintro ⟨es, hes, m, hm⟩
    rw [createValidate_error_eq hes] at hm
    rcases List.mem_append.mp hm with hm3 | hmP
    · rcases List.mem_append.mp hm3 with hm2 | hmE
      · rcases List.mem_append.mp hm2 with hmT | hmD
        · have hcr := mem_errOf.mp hmT
          unfold crT at hcr
          have hname := requiredField_error_name hcr
          simp at hname
        · have hcr := mem_errOf.mp hmD
          unfold crD at hcr
          rw [hd] at hcr
          exact ⟨m, requiredField_some_error_inv hcr⟩
      · have hcr := mem_errOf.mp hmE
        unfold crE at hcr
        have hname := requiredField_error_name hcr
        simp at hname
    · have hcr := mem_errOf.mp hmP
      unfold crP at hcr
      have hname := optField_error_name hcr
      simp at hname
  · rintro ⟨m0, hm0⟩
    have hD : crD b = Except.error ("description", m0) := by
      unfold crD; rw [hd]
      exact requiredField_some_error hm0
    cases hv : ticketCreateValidate b with
    | ok cd =>
      have hok := (createValidate_ok_inv hv).2.1
      rw [hD] at hok
      exact absurd hok (by simp)
    | error es =>
      refine ⟨es, rfl, m0, ?_⟩
      rw [createValidate_error_eq hv]
      refine List.mem_append_left _ (List.mem_append_left _
        (List.mem_append_right _ ?_))
      rw [hD]; simp [errOf]

theorem upd_title_err_iff {am : Bool} {b : Body} {tv : String}
    (ht : b.title = some tv) :
    (∃ es, ticketUpdateValidate am b = Except.error es ∧
        ∃ m, ("title", m) ∈ es) ↔
      (∃ m0, validateTitleField tv = Except.error m0) := by
  constructor
  · rintro ⟨es, hes, m, hm⟩
    rw [updValidate_error_eq hes] at hm
    rcases List.mem_append.mp hm with hm4 | hmS
    · rcases List.mem_append.mp hm4 with hm3 | hmP
      · rcases List.mem_append.mp hm3 with hm2 | hmE
        · rcases List.mem_append.mp hm2 with hmT | hmD
          · have hcr := mem_errOf.mp hmT
            unfold upT at hcr
            rw [ht, reqOrOpt_some] at hcr
            exact ⟨m, optField_some_error_inv hcr⟩
          · have hcr := mem_errOf.mp hmD
            unfold upD at hcr
            have hname := reqOrOpt_error_name hcr
            simp at hname
        · have hcr := mem_errOf.mp hmE
          unfold upE at hcr
          have hname := reqOrOpt_error_name hcr
          simp at hname
      · have hcr := mem_errOf.mp hmP
        unfold upP at hcr
        have hname := optField_error_name hcr
        simp at hname
    · have hcr := mem_errOf.mp hmS
      unfold upS at hcr
      have hname := optField_error_name hcr
      simp at hname
  · rintro ⟨m0, hm0⟩
    have hT : upT am b = Except.error ("title", m0) := by
      unfold upT; rw [ht, reqOrOpt_some]
      exact optField_some_error hm0
    cases hv : ticketUpdateValidate am b with
    | ok ud =>
      have hok := (updValidate_ok_inv hv).1
      rw [hT] at hok
      exact absurd hok (by simp)
    | error es =>
      refine ⟨es, rfl, m0, ?_⟩
      rw [updValidate_error_eq hv]
      refine List.mem_append_left _ (List.mem_append_left _
        (List.mem_append_left _ (List.mem_append_left _ ?_)))
      rw [hT]; simp [errOf]

theorem upd_descr_err_iff {am : Bool} {b : Body} {dv : String}
    (hd : b.description = some dv) :
    (∃ es, ticketUpdateValidate am b = Except.error es ∧
        ∃ m, ("description", m) ∈ es) ↔
      (∃ m0, validateDescriptionField dv = Except.error m0) := by
  constructor
  · rintro ⟨es, hes, m, hm⟩
    rw [updValidate_error_eq hes] at hm
    rcases List.mem_append.mp hm with hm4 | hmS
    · rcases List.mem_append.mp hm4 with hm3 | hmP
      · rcases List.mem_append.mp hm3 with hm2 | hmE
        · rcases List.mem_append.mp hm2 with hmT | hmD
          · have hcr := mem_errOf.mp hmT
            unfold upT at hcr
            have hname := reqOrOpt_error_name hcr
            simp at hname
          · have hcr := mem_errOf.mp hmD
            unfold upD at hcr
            rw [hd, reqOrOpt_some] at hcr
            exact ⟨m, optField_some_error_inv hcr⟩
        · have hcr := mem_errOf.mp hmE
          unfold upE at hcr
          have hname := reqOrOpt_error_name hcr
          simp at hname
      · have hcr := mem_errOf.mp hmP
        unfold upP at hcr
        have hname := optField_error_name hcr
        simp at hname
    · have hcr := mem_errOf.mp hmS
      unfold upS at hcr
      have hname := optField_error_name hcr
      simp at hname
  · rintro ⟨m0, hm0⟩
    have hD : upD am b = Except.error ("description", m0) := by
      unfold upD; rw [hd, reqOrOpt_some]
      exact optField_some_error hm0
    cases hv : ticketUpdateValidate am b with
    | ok ud =>
      have hok := (updValidate_ok_inv hv).2.1
      rw [hD] at hok
      exact absurd hok (by simp)
    | error es =>
      refine ⟨es, rfl, m0, ?_⟩
      rw [updValidate_error_eq hv]
      refine List.mem_append_left _ (List.mem_append_left _
        (List.mem_append_left _ (List.mem_append_right _ ?_)))
      rw [hD]; simp [errOf]

/-- A create/update body whose title and description carry surrounding
whitespace, for the C3 witness. -/
def wsBody : Body :=
  ⟨some "  Hi!  ", some "  a description ten+  ", some "w@x.yz", none, none⟩

set_option maxRecDepth 8192 in
/-- C3 counterexample: a 201-character title (trimmed length 201 ≥ 3) is
still rejected with an error keyed to `title`, because the model declares
`CharField(max_length=200)` and the serializer inherits that validator — so
"rejected exactly when trimmed length < 3" does not hold. -/
theorem C3_maxlength_counterexample :
    ticketCreateValidate bLong =
      Except.error
        [("title", "Ensure this field has no more than 200 characters.")] ∧
    3 ≤ (pyStrip longTitle).length ∧ bLong.title = some longTitle := by
  refine ⟨rfl, by decide, rfl⟩

/-- C3 (amended): in every create or update body, the error mapping has an
entry keyed `title` exactly when the trimmed title length is < 3 or
exceeds the model max length 200; it has an entry keyed `description`
exactly when the trimmed description length is < 10; and on acceptance the
validated values are the trimmed strings. -/
theorem C3_trim_validation_amended (b : Body) (tv dv : String)
    (ht : b.title = some tv) (hd : b.description = some dv) :
    ((∃ es, ticketCreateValidate b = Except.error es ∧
        ∃ m, ("title", m) ∈ es) ↔
      ((pyStrip tv).length < 3 ∨ 200 < (pyStrip tv).length)) ∧
    ((∃ es, ticketCreateValidate b = Except.error es ∧
        ∃ m, ("description", m) ∈ es) ↔
      (pyStrip dv).length < 10) ∧
    (∀ cd, ticketCreateValidate b = Except.ok cd →
      cd.title = pyStrip tv ∧ cd.description = pyStrip dv) ∧
    (∀ am, ((∃ es, ticketUpdateValidate am b = Except.error es ∧
        ∃ m, ("title", m) ∈ es) ↔
      ((pyStrip tv).length < 3 ∨ 200 < (pyStrip tv).length))) ∧
    (∀ am, ((∃ es, ticketUpdateValidate am b = Except.error es ∧
        ∃ m, ("description", m) ∈ es) ↔
      (pyStrip dv).length < 10)) ∧
    (∀ am ud, ticketUpdateValidate am b = Except.ok ud →
      ud.title = some (pyStrip tv) ∧ ud.description = some (pyStrip dv)) := by
  refine ⟨?_, ?_, ?_, ?_, ?_, ?_⟩
  · rw [create_title_err_iff ht]
    exact validateTitleField_error_iff tv
  · rw [create_descr_err_iff hd]
    exact validateDescriptionField_error_iff dv
  · intro cd hok
    obtain ⟨h1, h2, _, _⟩ := createValidate_ok_inv hok
    unfold crT at h1
    rw [ht] at h1
    unfold crD at h2
    rw [hd] at h2
    exact ⟨validateTitleField_ok (requiredField_ok_val h1),
      validateDescriptionField_ok (requiredField_ok_val h2)⟩
  · intro am
    rw [upd_title_err_iff ht]
    exact validateTitleField_error_iff tv
  · intro am
    rw [upd_descr_err_iff hd]
    exact validateDescriptionField_error_iff dv
  · intro am ud hok
    obtain ⟨h1, h2, _, _, _⟩ := updValidate_ok_inv hok
    unfold upT at h1
    rw [ht, reqOrOpt_some] at h1
    obtain ⟨a, ha, hfa⟩ := optField_ok_val h1
    unfold upD at h2
    rw [hd, reqOrOpt_some] at h2
    obtain ⟨a2, ha2, hfa2⟩ := optField_ok_val h2
    constructor
    · rw [ha, validateTitleField_ok hfa]
    · rw [ha2, validateDescriptionField_ok hfa2]

/-- Witness for C3 at a concrete body with surrounding whitespace. -/
theorem C3_trim_validation_witness :
    ((∃ es, ticketCreateValidate wsBody = Except.error es ∧
        ∃ m, ("title", m) ∈ es) ↔
      ((pyStrip "  Hi!  ").length < 3 ∨ 200 < (pyStrip "  Hi!  ").length)) ∧
    ((∃ es, ticketCreateValidate wsBody = Except.error es ∧
        ∃ m, ("description", m) ∈ es) ↔
      (pyStrip "  a description ten+  ").length < 10) ∧
    (∀ cd, ticketCreateValidate wsBody = Except.ok cd →
      cd.title = pyStrip "  Hi!  " ∧
        cd.description = pyStrip "  a description ten+  ") ∧
    (∀ am, ((∃ es, ticketUpdateValidate am wsBody = Except.error es ∧
        ∃ m, ("title", m) ∈ es) ↔
      ((pyStrip "  Hi!  ").length < 3 ∨ 200 < (pyStrip "  Hi!  ").length))) ∧
    (∀ am, ((∃ es, ticketUpdateValidate am wsBody = Except.error es ∧
        ∃ m, ("description", m) ∈ es) ↔
      (pyStrip "  a description ten+  ").length < 10)) ∧
    (∀ am ud, ticketUpdateValidate am wsBody = Except.ok ud →
      ud.title = some (pyStrip "  Hi!  ") ∧
        ud.description = some (pyStrip "  a description ten+  ")) :=
  C3_trim_validation_amended wsBody "  Hi!  " "  a description ten+  " rfl rfl

theorem statusStr_eq_iff {u : Ticket} {sv : String} {st : Status}
    (hps : parseStatus sv = some st) :
    (statusStr u.status = sv) ↔ (u.status = st) := by
  constructor
  · intro h
    exact statusStr_inj (h.trans (parseStatus_inv hps).symm)
  · intro h
    rw [h]
    exact parseStatus_inv hps

/-- C5: with a non-empty `search` parameter, a ticket is in the list
results exactly when the term occurs case-insensitively in its title,
description or contact_email (disjunction over the three fields), conjoined
with the status filter when a non-empty status parameter is present. -/
theorem C5_search_or (p : ListParams) (db : Store) (q : String)
    (ts : List Ticket) (t : Ticket)
    (hq : p.search = some q) (hne : q.isEmpty = false)
    (hts : listTickets p db = Except.ok ts) :
    t ∈ ts ↔
      t ∈ db.tickets ∧ matchesSearch q t = true ∧
        ∀ sv, p.status = some sv → sv.isEmpty = false →
          statusStr t.status = sv := by
  unfold listTickets backendFilter getQueryset at hts
  rw [hq] at hts
  cases hst : p.status with
  | none =>
    rw [hst] at hts
    simp only [hne, Bool.false_eq_true, if_false] at hts
    simp only [Except.ok.injEq] at hts
    subst hts
    simp [List.mem_filter, hst]
  | some sv =>
    rw [hst] at hts
    by_cases hsv : sv.isEmpty
    · simp only [hsv, if_true, hne, Bool.false_eq_true, if_false,
        Except.ok.injEq] at hts
      subst hts
      simp only [List.mem_filter]
      constructor
      · rintro ⟨hmem, hsearch⟩
        refine ⟨hmem, hsearch, ?_⟩
        intro sv2 heq hne2
        injection heq with heq
        subst heq
        rw [hsv] at hne2
        exact absurd hne2 (by simp)
      · rintro ⟨hmem, hsearch, _⟩
        exact ⟨hmem, hsearch⟩
    · rw [Bool.not_eq_true] at hsv
      simp only [hsv, Bool.false_eq_true, if_false, hne] at hts
      cases hps : parseStatus sv with
      | none =>
        rw [hps] at hts
        exact absurd hts (by simp)
      | some st =>
        rw [hps] at hts
        simp only [Except.ok.injEq] at hts
        subst hts
        simp only [List.mem_filter]
        constructor
        · rintro ⟨⟨⟨hmem, hstat⟩, hsearch⟩, hstat2⟩
          refine ⟨hmem, hsearch, ?_⟩
          intro sv2 heq hne2
          injection heq with heq
          subst heq
          exact of_decide_eq_true hstat
        · rintro ⟨hmem, hsearch, hstat⟩
          have hs2 := hstat sv rfl hsv
          exact ⟨⟨⟨hmem, decide_eq_true hs2⟩, hsearch⟩,
            decide_eq_true ((statusStr_eq_iff hps).mp hs2)⟩

/-- Witness for C5: searching "printer" with `status=pending` on `db0`. -/
theorem C5_search_or_witness :
    tkt0 ∈ [tkt0] ↔
      tkt0 ∈ db0.tickets ∧ matchesSearch "printer" tkt0 = true ∧
        ∀ sv, (⟨some "pending", some "printer", none, none⟩ :
            ListParams).status = some sv →
          sv.isEmpty = false → statusStr tkt0.status = sv :=
  C5_search_or ⟨some "pending", some "printer", none, none⟩ db0 "printer"
    [tkt0] tkt0 rfl rfl (by rfl)

theorem createTicket_error {now : Nat} {b : Body} {db : Store}
    {es : List (String × String)}
    (hv : ticketCreateValidate b = Except.error es) :
    createTicket now b db = Except.error es := by
  unfold createTicket
  rw [hv]

theorem updateTicket_validate_error {now : Nat} {am : Bool} {tid : Nat}
    {b : Body} {db : Store} {es : List (String × String)}
    (hv : ticketUpdateValidate am b = Except.error es) :
    updateTicket now am tid b db = UpdateResult.notFound ∨
      updateTicket now am tid b db = UpdateResult.invalid es := by
  unfold updateTicket
  cases hf : findTicket tid db with
  | none => exact Or.inl rfl
  | some t0 => rw [hv]; exact Or.inr rfl

/-- C7: when create or update validation fails, the response carries the
field-error mapping with an entry for every failing field (errors are
collected across fields, not fail-fast), and the store is not mutated: no
record is created and the targeted ticket keeps its values. -/
theorem C7_validation_error_reporting (now tid : Nat) (b : Body) (db : Store) :
    (∀ es, ticketCreateValidate b = Except.error es →
      stepStore (Request.createReq now b) db = db ∧ es ≠ [] ∧
      (∀ e, crT b = Except.error e → e ∈ es) ∧
      (∀ e, crD b = Except.error e → e ∈ es) ∧
      (∀ e, crE b = Except.error e → e ∈ es) ∧
      (∀ e, crP b = Except.error e → e ∈ es)) ∧
    (∀ am es, ticketUpdateValidate am b = Except.error es →
      stepStore (if am then Request.patchReq now tid b
        else Request.putReq now tid b) db = db ∧ es ≠ [] ∧
      (∀ e, upT am b = Except.error e → e ∈ es) ∧
      (∀ e, upD am b = Except.error e → e ∈ es) ∧
      (∀ e, upE am b = Except.error e → e ∈ es) ∧
      (∀ e, upP b = Except.error e → e ∈ es) ∧
      (∀ e, upS b = Except.error e → e ∈ es)) := by
  constructor
  · intro es hv
    refine ⟨?_, createValidate_error_ne_nil hv, ?_, ?_, ?_, ?_⟩
    · simp only [stepStore]
      rw [createTicket_error hv]
    · intro e he
      rw [createValidate_error_eq hv]
      exact List.mem_append_left _ (List.mem_append_left _
        (List.mem_append_left _ (mem_errOf.mpr he)))
    · intro e he
      rw [createValidate_error_eq hv]
      exact List.mem_append_left _ (List.mem_append_left _
        (List.mem_append_right _ (mem_errOf.mpr he)))
    · intro e he
      rw [createValidate_error_eq hv]
      exact List.mem_append_left _ (List.mem_append_right _ (mem_errOf.mpr he))
    · intro e he
      rw [createValidate_error_eq hv]
      exact List.mem_append_right _ (mem_errOf.mpr he)
  · intro am es hv
    refine ⟨?_, updValidate_error_ne_nil hv, ?_, ?_, ?_, ?_, ?_⟩
    · cases am with
      | false =>
        simp only [Bool.false_eq_true, if_false, stepStore]
        rcases @updateTicket_validate_error now false tid b db es hv
          with h | h <;> rw [h]
      | true =>
        simp only [if_true, stepStore]
        rcases @updateTicket_validate_error now true tid b db es hv
          with h | h <;> rw [h]
    · intro e he
      rw [updValidate_error_eq hv]
      exact List.mem_append_left _ (List.mem_append_left _
        (List.mem_append_left _ (List.mem_append_left _ (mem_errOf.mpr he))))
    · intro e he
      rw [updValidate_error_eq hv]
      exact List.mem_append_left _ (List.mem_append_left _
        (List.mem_append_left _ (List.mem_append_right _ (mem_errOf.mpr he))))
    · intro e he
      rw [updValidate_error_eq hv]
      exact List.mem_append_left _ (List.mem_append_left _
        (List.mem_append_right _ (mem_errOf.mpr he)))
    · intro e he
      rw [updValidate_error_eq hv]
      exact List.mem_append_left _ (List.mem_append_right _ (mem_errOf.mpr he))
    · intro e he
      rw [updValidate_error_eq hv]
      exact List.mem_append_right _ (mem_errOf.mpr he)

/-- Witness for C7 at a concrete invalid body (short title, short
description, over-long phone, missing email). -/
theorem C7_validation_error_reporting_witness :
    stepStore (Request.createReq 7
      ⟨some "Hi", some "short", none,
        some "123456789012345678901", none⟩) db0 = db0 ∧
    ("title", "Title must be at least 3 characters long.") ∈
      [("title", "Title must be at least 3 characters long."),
       ("description", "Description must be at least 10 characters long."),
       ("contact_email", "This field is required."),
       ("contact_phone", "Ensure this field has no more than 20 characters.")] := by
  have h := ((C7_validation_error_reporting 7 1
      ⟨some "Hi", some "short", none, some "123456789012345678901", none⟩
      db0).1
    [("title", "Title must be at least 3 characters long."),
     ("description", "Description must be at least 10 characters long."),
     ("contact_email", "This field is required."),
     ("contact_phone", "Ensure this field has no more than 20 characters.")]
    (by rfl))
  exact ⟨h.1, h.2.2.1 _ (by rfl)⟩

/-- A concrete mixed request sequence for the C9 witness. -/
def rsW : List Request :=
  [Request.patchReq 9 1 onlyStatusBody,
   Request.createReq 10 goodBody,
   Request.putReq 11 1 fullBody,
   Request.adminEditReq 12 1
     ⟨"Admin title", "Admin set description", "adm@in.io", none, Status.rejected⟩,
   Request.listReq ⟨some "pending", none, none, none⟩,
   Request.statsReq]

/-- C9: no request reachable through the public interface (the three routes
of `urls.py` plus the admin console, whose delete permission is always
denied) ever removes a ticket: after any sequence of requests, an existing
ticket id still resolves to the same record (same `id`, same immutable
`created_at`). -/
theorem C9_no_deletion (rs : List Request) (db : Store) (tid : Nat) (t : Ticket)
    (h : findTicket tid db = some t) :
    ∃ t2, findTicket tid (runRequests rs db) = some t2 ∧
      t2.id = t.id ∧ t2.created_at = t.created_at := by
  induction rs generalizing db t with
  | nil => exact ⟨t, h, rfl, rfl⟩
  | cons r rs ih =>
    obtain ⟨t1, h1, hid1, hc1⟩ := findTicket_stepStore r db tid t h
    obtain ⟨t2, h2, hid2, hc2⟩ := ih (stepStore r db) t1 h1
    exact ⟨t2, h2, hid2.trans hid1, hc2.trans hc1⟩

/-- Witness for C9: ticket 1 survives a concrete mixed request sequence. -/
theorem C9_no_deletion_witness :
    ∃ t2, findTicket 1 (runRequests rsW db0) = some t2 ∧
      t2.id = tkt0.id ∧ t2.created_at = tkt0.created_at :=
  C9_no_deletion rsW db0 1 tkt0 rfl

end Helpdesk
